import Mathlib

/-!
Verification of the dataplatform-ui mock backend against its specification.

The definitions below are a shallow embedding of the TypeScript/JavaScript
sources:
  - src/services/mockApi.ts   (module-instance CRUD, workflow CRUD, execution)
  - src/setupProxy.js         (dev-server file-backed workflow endpoints)
  - the configuration validator (validateModuleConfiguration) and
    ModuleInstanceForm.validateForm.

JavaScript values stored in configurations and workflow documents are
modelled by the inductive type JValue; machine time, Math.random draws and
host-language primitives (regular expressions, JSON parsing, number
formatting) are passed in as explicit parameters so that every function is
pure and executable.
-/

namespace DataplatformUI

/-- Model of a JavaScript/JSON value as it appears in configuration records
and workflow documents. JavaScript `undefined` and `null` are distinguished
because the validator compares against both. Numbers are modelled as
rationals. -/
inductive JValue where
  | undef : JValue
  | null : JValue
  | bool (b : Bool) : JValue
  | num (q : ℚ) : JValue
  | str (s : String) : JValue
  | arr (elems : List JValue) : JValue
  | obj (fields : List (String × JValue)) : JValue

/-- The boolean-ness test `typeof value === 'boolean'`. -/
def JValue.isBool : JValue → Bool
  | .bool _ => true
  | _ => false

/-- The string-ness test `typeof value === 'string'`. -/
def JValue.isStr : JValue → Bool
  | .str _ => true
  | _ => false

/-- JavaScript falsiness of a value (used by `!configuration[param.name]`
style checks). `NaN` is not representable in this model; `0`, `false`, the
empty string, `undefined` and `null` are falsy, everything else truthy. -/
def jsFalsy : JValue → Bool
  | .undef => true
  | .null => true
  | .bool b => !b
  | .num q => q == 0
  | .str s => s == ""
  | .arr _ => false
  | .obj _ => false

/-- The module types of the mock API, from types/modules
(ModulesConfig has exactly the keys sources, transformations, sinks,
tables). -/
inductive ModuleType where
  | sources
  | transformations
  | sinks
  | tables
deriving Repr, DecidableEq

/-- Rendering of a ModuleType as the string interpolated into error
messages, matching the TypeScript union values. -/
def ModuleType.jsName : ModuleType → String
  | .sources => "sources"
  | .transformations => "transformations"
  | .sinks => "sinks"
  | .tables => "tables"

/-- A stored module instance, from the ModuleInstance interface in
types/modules. In stored instances the id and timestamps are always
present, so they are not optional here; description is genuinely
optional. -/
structure ModuleInstance where
  id : String
  module_id : String
  name : String
  description : Option String
  configuration : List (String × JValue)
  created_at : String
  updated_at : String

/-- The request payload shared by createModuleInstance and
updateModuleInstance in mockApi.ts. -/
structure InstanceData where
  module_id : String
  name : String
  description : Option String
  configuration : List (String × JValue)

/-- The contents of localStorage under the mock_module_instances key: a
record mapping each module type to its list of instances. -/
def InstanceStore := ModuleType → List ModuleInstance

/-- Pointwise replacement of one module type entry in the store, the
effect of assigning instances[moduleType] and calling
setStoredInstances. -/
def InstanceStore.set (store : InstanceStore) (t : ModuleType)
    (l : List ModuleInstance) : InstanceStore :=
  fun u => if u = t then l else store u

/-- The update applied to the instance found by updateModuleInstance:
spread of the existing instance with the request fields and a fresh
updated_at (id and created_at are untouched by the spread). Note that the
source writes description unconditionally, so an absent request
description clears the stored one. -/
def applyInstanceUpdate (data : InstanceData) (now : String)
    (existingInstance : ModuleInstance) : ModuleInstance :=
  { existingInstance with
    module_id := data.module_id
    name := data.name
    description := data.description
    configuration := data.configuration
    updated_at := now }

/-- Replacement at the first index whose id matches, rendering the
findIndex-then-assign pattern of updateModuleInstance; none corresponds
to findIndex returning -1. Returns the new list and the updated
instance. -/
def updateInList (instanceId : String) (upd : ModuleInstance → ModuleInstance) :
    List ModuleInstance → Option (List ModuleInstance × ModuleInstance)
  | [] => none
  | inst :: rest =>
    if inst.id = instanceId then
      some (upd inst :: rest, upd inst)
    else
      match updateInList instanceId upd rest with
      | none => none
      | some (l, u) => some (inst :: l, u)

/-- Removal of the element at the first index whose id matches, rendering
the findIndex-then-splice pattern of deleteModuleInstance. -/
def removeFromList (instanceId : String) :
    List ModuleInstance → Option (List ModuleInstance)
  | [] => none
  | inst :: rest =>
    if inst.id = instanceId then some rest
    else
      match removeFromList instanceId rest with
      | none => none
      | some l => some (inst :: l)

/-- Embedding of MockApiService.updateModuleInstance. A thrown Error is
modelled as the error branch of Except; since the source throws before
calling setStoredInstances, the error branch performs no store write. -/
def updateModuleInstance (store : InstanceStore) (moduleType : ModuleType)
    (instanceId : String) (data : InstanceData) (now : String) :
    Except String (InstanceStore × ModuleInstance) :=
  match updateInList instanceId (applyInstanceUpdate data now) (store moduleType) with
  | none => .error ("Module instance with ID " ++ instanceId ++ " not found")
  | some (newList, updatedInstance) =>
    .ok (store.set moduleType newList, updatedInstance)

/-- Embedding of MockApiService.deleteModuleInstance. -/
def deleteModuleInstance (store : InstanceStore) (moduleType : ModuleType)
    (instanceId : String) : Except String InstanceStore :=
  match removeFromList instanceId (store moduleType) with
  | none => .error ("Module instance with ID " ++ instanceId ++ " not found")
  | some newList => .ok (store.set moduleType newList)

/-- The parameter type union of ModuleParameter in types/modules. -/
inductive ParamType where
  | text
  | number
  | boolean
  | select
  | textarea
  | password
  | dynamic_select
  | multi_select
  | key_value
  | json
deriving Repr, DecidableEq

/-- The optional validation block of a ModuleParameter: numeric or length
bounds, a regular-expression pattern, and a custom validation tag. -/
structure ParamValidation where
  min : Option ℚ
  max : Option ℚ
  pattern : Option String
  custom : Option String
deriving Repr, DecidableEq

/-- A module parameter definition, from the ModuleParameter interface in
types/modules. Fields that no validator reads (default, placeholder, help,
depends_on, dynamic_options_endpoint, group) are omitted from the
embedding. The interface documents name as a unique identifier for the
parameter within its module. -/
structure ModuleParameter where
  name : String
  label : String
  type : ParamType
  required : Bool
  options : Option (List String)
  validation : Option ParamValidation
deriving Repr, DecidableEq

/-- A module definition, from the ModuleDefinition interface in
types/modules; display-only fields (category, type, description, icon)
are omitted from the embedding. -/
structure ModuleDefinition where
  id : String
  name : String
  parameters : List ModuleParameter
deriving Repr, DecidableEq

/-- The module definitions record loaded from mock-modules.json, keyed by
module type. -/
def ModulesConfig := ModuleType → List ModuleDefinition

/-- Counter step of MockApiService.generateId: the persisted lastId
counter is incremented and the new value is returned; the source
stringifies it with toString. The first component is the new lastId, the
second the assigned numeric id (they are equal by construction). -/
def generateId (lastId : Nat) : Nat × Nat :=
  (lastId + 1, lastId + 1)

/-- Embedding of MockApiService.createModuleInstance. The id check runs
against the module definitions before generateId is called and before any
store write, so the error branch changes neither the store nor the
counter. On success the new instance id is the decimal string of the
fresh counter value. -/
def createModuleInstance (defs : ModulesConfig) (store : InstanceStore)
    (moduleType : ModuleType) (data : InstanceData) (lastId : Nat) (now : String) :
    Except String (InstanceStore × Nat × ModuleInstance) :=
  if (defs moduleType).any (fun d => d.id == data.module_id) then
    let newId := (generateId lastId).2
    let newInstance : ModuleInstance :=
      { id := Nat.repr newId
        module_id := data.module_id
        name := data.name
        description := data.description
        configuration := data.configuration
        created_at := now
        updated_at := now }
    .ok (store.set moduleType (store moduleType ++ [newInstance]),
         (generateId lastId).1, newInstance)
  else
    .error ("Module with ID " ++ data.module_id ++ " not found in " ++
            moduleType.jsName)

/-- Trace of the numeric ids handed out by n successive generateId calls
starting from a given lastId value. -/
def genSeq (lastId : Nat) : Nat → List Nat
  | 0 => []
  | n + 1 => (generateId lastId).2 :: genSeq (generateId lastId).1 n

/-- The id-collision retry loop of the dev-server create endpoint: keep
the current candidate id unless a workflow file for it already exists, in
which case take the next freshly generated id and retry. The generated
ids (time-plus-random strings in the source) are supplied as a list; none
models the loop exhausting the supply, which never happens at run time. -/
def devChooseId (existing : String → Bool) : String → List String → Option String
  | id, gens =>
    if existing id then
      match gens with
      | [] => none
      | g :: rest => devChooseId existing g rest
    else some id

/-- JavaScript string defaulting with the or-operator: the default is
taken when the operand is absent or is the empty string (the only falsy
string). -/
def jsStringOr (o : Option String) (dflt : String) : String :=
  match o with
  | some s => if s = "" then dflt else s
  | none => dflt

/-- Node payload, from the NodeData interface in types/workflows. -/
structure NodeData where
  label : String
  type : String
  config : List (String × JValue)

/-- A workflow node, from the WorkflowNode interface; canvas positions
are rational coordinates. -/
structure WorkflowNode where
  id : String
  type : String
  x : ℚ
  y : ℚ
  data : NodeData

/-- A workflow edge, from the WorkflowEdge interface. -/
structure WorkflowEdge where
  id : String
  source : String
  target : String
  type : Option String

/-- The canvas viewport persisted with a workflow. -/
structure Viewport where
  x : ℚ
  y : ℚ
  zoom : ℚ

/-- A persisted workflow record, with exactly the fields written by the
create paths of mockApi.saveWorkflow and the dev-server POST handler. -/
structure Workflow where
  id : String
  name : String
  description : String
  status : String
  created_at : String
  updated_at : String
  last_execution : Option String
  execution_status : String
  nodes : List WorkflowNode
  edges : List WorkflowEdge
  viewport : Viewport

/-- A create or save request body: every field the create paths read is
optional in the incoming JSON document. -/
structure WorkflowInput where
  id : Option String
  name : Option String
  description : Option String
  status : Option String
  nodes : Option (List WorkflowNode)
  edges : Option (List WorkflowEdge)
  viewport : Option Viewport

/-- The localStorage workflows document, shaped like the object stored
under the mock_workflows key. -/
structure WorkflowsDoc where
  workflows : List Workflow

/-- The fallback viewport object of both create paths. -/
def defaultViewport : Viewport :=
  { x := 0, y := 0, zoom := 1 }

/-- Embedding of the localStorage fallback branch of
MockApiService.saveWorkflow: a fresh workflow is built from the request
with defaults, appended to the stored document, and returned together
with the advanced id counter. -/
def saveWorkflowLocal (data : WorkflowsDoc) (lastId : Nat)
    (workflowData : WorkflowInput) (now : String) :
    WorkflowsDoc × Nat × Workflow :=
  let workflow : Workflow :=
    { id := Nat.repr (generateId lastId).2
      name := jsStringOr workflowData.name "Untitled Workflow"
      description := jsStringOr workflowData.description ""
      status := "draft"
      created_at := now
      updated_at := now
      last_execution := none
      execution_status := "pending"
      nodes := workflowData.nodes.getD []
      edges := workflowData.edges.getD []
      viewport := workflowData.viewport.getD defaultViewport }
  ({ workflows := data.workflows ++ [workflow] }, (generateId lastId).1, workflow)

/-- Id selection of the dev-server POST /mock-api/workflows handler. The
initial candidate id is the request body id when truthy, otherwise the
first generated id; the retry loop then skips every id whose workflow
file already exists. As in devChooseId, the supply of generated ids is a
list and none models exhausting it. -/
def devPickId (existing : String → Bool) (body : WorkflowInput)
    (gens : List String) : Option String :=
  match body.id with
  | some s =>
    if s = "" then
      match gens with
      | [] => none
      | g :: rest => devChooseId existing g rest
    else devChooseId existing s gens
  | none =>
    match gens with
    | [] => none
    | g :: rest => devChooseId existing g rest

/-- Embedding of the dev-server POST /mock-api/workflows handler body
after the id has been picked by devPickId. The persisted record and the
201 response body are the same object. -/
def devCreateWorkflow (existing : String → Bool) (body : WorkflowInput)
    (gens : List String) (now : String) : Option (String × Workflow) :=
  match devPickId existing body gens with
  | none => none
  | some id =>
    some (id,
      { id := id
        name := jsStringOr body.name "Untitled Workflow"
        description := jsStringOr body.description ""
        status := jsStringOr body.status "draft"
        created_at := now
        updated_at := now
        last_execution := none
        execution_status := "pending"
        nodes := body.nodes.getD []
        edges := body.edges.getD []
        viewport := body.viewport.getD defaultViewport })

/-- The execution result object returned by executeWorkflow and by the
dev-server execute endpoint; an absent executionId property is none. -/
structure ExecResult where
  success : Bool
  message : String
  executionId : Option String
deriving Repr, DecidableEq

/-- In-place update of the first workflow whose id matches, rendering the
findIndex guard of the executeWorkflow fallback: the matched record gets
a fresh last_execution and the drawn execution_status; when nothing
matches the list is returned unchanged, matching the source skipping the
write. -/
def markExecuted (workflowId : String) (now : String) (status : String) :
    List Workflow → List Workflow
  | [] => []
  | w :: rest =>
    if w.id = workflowId then
      { w with last_execution := some now, execution_status := status } :: rest
    else
      w :: markExecuted workflowId now status rest

/-- Embedding of the localStorage fallback branch of
MockApiService.executeWorkflow. The two Math.random draws of the source
(one for the persisted status, an independent one for the response) are
passed in as the rationals r1 and r2; a draw above one fifth means
success. generateId is only reached in the success branch of the
response. -/
def executeWorkflowLocal (data : WorkflowsDoc) (lastId : Nat)
    (workflowId : String) (now : String) (r1 r2 : ℚ) :
    WorkflowsDoc × Nat × ExecResult :=
  let newDoc : WorkflowsDoc :=
    { workflows :=
        markExecuted workflowId now (if 1/5 < r1 then "success" else "failed")
          data.workflows }
  if 1/5 < r2 then
    (newDoc, (generateId lastId).1,
     { success := true
       message := "Workflow execution started successfully"
       executionId := some ("exec_" ++ Nat.repr (generateId lastId).2) })
  else
    (newDoc, lastId,
     { success := false
       message := "Workflow execution failed: Invalid configuration or connection error"
       executionId := none })

/-- A raw JSON workflow document as stored by the dev server, modelled as
a partial field assignment; none means the property is absent. -/
def JRecord := String → Option JValue

/-- Embedding of the dev-server PUT /mock-api/workflows/:id handler body:
spread of the existing record, then the request body, then the pinned id
and a fresh updated_at timestamp. -/
def devUpdateWorkflow (existing : JRecord) (body : JRecord) (now : String) :
    JRecord :=
  fun k =>
    if k = "id" then existing "id"
    else if k = "updated_at" then some (.str now)
    else
      match body k with
      | some v => some v
      | none => existing k

/-- Embedding of the dev-server POST /mock-api/workflows/:id/execute
handler for an existing workflow record: one random draw decides the
persisted status, updated_at is copied from the fresh last_execution, and
the response is derived from the persisted status. Date.now() of the
executionId is passed in as nowMs. -/
def devExecuteWorkflow (existing : JRecord) (now : String) (nowMs : Nat)
    (r : ℚ) : JRecord × ExecResult :=
  let status : String := if 1/5 < r then "success" else "failed"
  let updated : JRecord := fun k =>
    if k = "last_execution" then some (.str now)
    else if k = "execution_status" then some (.str status)
    else if k = "updated_at" then some (.str now)
    else existing k
  let success : Bool := status = "success"
  (updated,
   { success := success
     message :=
       if success then "Workflow execution started successfully"
       else "Workflow execution failed: Invalid configuration or connection error"
     executionId := if success then some ("exec_" ++ Nat.repr nowMs) else none })

/-- Sort key of the dev-server GET /mock-api/workflows comparator: the
updated_at string when present and non-empty, else created_at, else the
empty string. Timestamps in the stored documents are ISO strings; a
non-string value in these fields is outside the model and keys as the
empty string. -/
def workflowSortKey (w : JRecord) : String :=
  let au :=
    match w "updated_at" with
    | some (.str s) => s
    | _ => ""
  if au ≠ "" then au
  else
    match w "created_at" with
    | some (.str s) => s
    | _ => ""

/-- Embedding of the dev-server GET /mock-api/workflows handler core: the
workflow documents read from disk, sorted descending by workflowSortKey
(the comparator returns -1 when the left key is greater). -/
def listWorkflows (ws : List JRecord) : List JRecord :=
  ws.mergeSort (fun a b => workflowSortKey b ≤ workflowSortKey a)

/-- Host-language primitives used by the configuration validator, passed
in explicitly: regular-expression matching, JSON parseability, the email,
url and ip helpers (themselves regex or URL-constructor based in the
source), string-to-number and object-to-number coercion, and number
display used inside error messages. -/
structure HostChecks where
  regexTest : String → String → Bool
  jsonParses : String → Bool
  isValidEmail : String → Bool
  isValidUrl : String → Bool
  isValidIpAddress : String → Bool
  toNumberStr : String → Option ℚ
  toNumberBox : JValue → Option ℚ
  showNum : ℚ → String
  displayValue : JValue → String

/-- JavaScript Number coercion, with none standing for NaN. The primitive
cases follow the language specification; strings and boxed values defer
to the host parameters. -/
def jsToNumber (hc : HostChecks) : JValue → Option ℚ
  | .undef => none
  | .null => some 0
  | .bool b => some (if b then 1 else 0)
  | .num q => some q
  | .str s => hc.toNumberStr s
  | v => hc.toNumberBox v

/-- Display of a value inside the invalid-options message, where the
source joins arbitrary array elements into a string. -/
def jsDisplay (hc : HostChecks) : JValue → String
  | .str s => s
  | v => hc.displayValue v

/-- Emptiness test of the validator: the value is strictly undefined,
null or the empty string. -/
def isEmptyValue : JValue → Bool
  | .undef => true
  | .null => true
  | .str s => s == ""
  | _ => false

/-- Property assignment on a string record modelled as an association
list: object keys are unique in the host language, so assignment replaces
the binding in place when the key exists and appends it otherwise. -/
def recordSet : List (String × String) → String → String →
    List (String × String)
  | [], k, v => [(k, v)]
  | p :: rest, k, v =>
    if p.1 = k then (k, v) :: rest else p :: recordSet rest k v

/-- Property read on a string record. -/
def recordGet (rec : List (String × String)) (k : String) : Option String :=
  (rec.find? (fun p => p.1 == k)).map Prod.snd

/-- Net error message of the type switch of validateModuleConfiguration
for one parameter with a non-empty value. Inside one parameter every
write targets the same key, so consecutive writes collapse to the last
one: a max-bound message overwrites a min-bound message, and a pattern
message overwrites both. -/
def typeErrorMsg (hc : HostChecks) (param : ModuleParameter) (value : JValue) :
    Option String :=
  match param.type with
  | .number =>
    match jsToNumber hc value with
    | none => some (param.label ++ " must be a valid number")
    | some numValue =>
      let afterMin :=
        match param.validation.bind (fun v => v.min) with
        | some m =>
          if numValue < m then
            some (param.label ++ " must be at least " ++ hc.showNum m)
          else none
        | none => none
      match param.validation.bind (fun v => v.max) with
      | some m =>
        if numValue > m then
          some (param.label ++ " must be at most " ++ hc.showNum m)
        else afterMin
      | none => afterMin
  | .text | .password =>
    match value with
    | .str s =>
      let afterMin :=
        match param.validation.bind (fun v => v.min) with
        | some m =>
          if (s.length : ℚ) < m then
            some (param.label ++ " must be at least " ++ hc.showNum m ++ " characters")
          else none
        | none => none
      let afterMax :=
        match param.validation.bind (fun v => v.max) with
        | some m =>
          if (s.length : ℚ) > m then
            some (param.label ++ " must be at most " ++ hc.showNum m ++ " characters")
          else afterMin
        | none => afterMin
      match param.validation.bind (fun v => v.pattern) with
      | some pat =>
        if !hc.regexTest pat s then some (param.label ++ " format is invalid")
        else afterMax
      | none => afterMax
    | _ => some (param.label ++ " must be a string")
  | .select =>
    match param.options with
    | some opts =>
      let included :=
        match value with
        | .str s => opts.contains s
        | _ => false
      if !included then
        some (param.label ++ " must be one of: " ++ String.intercalate ", " opts)
      else none
    | none => none
  | .multi_select =>
    match value with
    | .arr elems =>
      match param.options with
      | some opts =>
        let invalidOptions := elems.filter (fun v =>
          !(match v with
            | .str s => opts.contains s
            | _ => false))
        if invalidOptions.length > 0 then
          some (param.label ++ " contains invalid options: " ++
                String.intercalate ", " (invalidOptions.map (jsDisplay hc)))
        else none
      | none => none
    | _ => some (param.label ++ " must be an array")
  | .json =>
    match value with
    | .str s =>
      if !hc.jsonParses s then some (param.label ++ " must be valid JSON")
      else none
    | _ => none
  | _ => none

/-- Error message of the custom-validation switch that runs after the
type switch; each branch only fires on string values. -/
def customErrorMsg (hc : HostChecks) (param : ModuleParameter) (value : JValue) :
    Option String :=
  match param.validation.bind (fun v => v.custom) with
  | some c =>
    match c with
    | "email" =>
      match value with
      | .str s =>
        if !hc.isValidEmail s then
          some (param.label ++ " must be a valid email address")
        else none
      | _ => none
    | "url" =>
      match value with
      | .str s =>
        if !hc.isValidUrl s then some (param.label ++ " must be a valid URL")
        else none
      | _ => none
    | "ip_address" =>
      match value with
      | .str s =>
        if !hc.isValidIpAddress s then
          some (param.label ++ " must be a valid IP address")
        else none
      | _ => none
    | _ => none
  | none => none

/-- Net error left at a parameter key by one loop iteration on a
non-empty value: the custom write overwrites the type-switch write when
both fire. -/
def paramErrorNet (hc : HostChecks) (param : ModuleParameter) (value : JValue) :
    Option String :=
  match customErrorMsg hc param value with
  | some m => some m
  | none => typeErrorMsg hc param value

/-- One iteration of the parameters.forEach loop of
validateModuleConfiguration, threading the errors and warnings records.
An empty value either records the required message and moves on, or is
skipped entirely; a non-empty value runs the type switch (whose boolean
case writes a warning instead of an error) and the custom switch. -/
def validateParamStep (hc : HostChecks) (cfg : String → JValue)
    (acc : List (String × String) × List (String × String))
    (param : ModuleParameter) :
    List (String × String) × List (String × String) :=
  let value := cfg param.name
  let errors := acc.1
  let warnings := acc.2
  if isEmptyValue value then
    if param.required then
      (recordSet errors param.name (param.label ++ " is required"), warnings)
    else (errors, warnings)
  else
    let errors :=
      match paramErrorNet hc param value with
      | some m => recordSet errors param.name m
      | none => errors
    let warnings :=
      if param.type = .boolean && !value.isBool then
        recordSet warnings param.name (param.label ++ " should be a boolean value")
      else warnings
    (errors, warnings)

/-- Result record of validateModuleConfiguration. -/
structure ValidationResult where
  isValid : Bool
  errors : List (String × String)
  warnings : Option (List (String × String))
deriving Repr, DecidableEq

/-- Embedding of validateModuleConfiguration: fold the per-parameter step
over the parameter list, then package the records; warnings is only
attached when non-empty. The configuration record is modelled as a total
lookup returning undefined for missing keys. -/
def validateModuleConfiguration (hc : HostChecks)
    (parameters : List ModuleParameter) (cfg : String → JValue) :
    ValidationResult :=
  let acc := parameters.foldl (validateParamStep hc cfg) ([], [])
  { isValid := acc.1.isEmpty
    errors := acc.1
    warnings := if acc.2.isEmpty then none else some acc.2 }

/-- Occurrence of one list as a contiguous segment of another. -/
def listIsInfixOf [BEq α] (needle : List α) : List α → Bool
  | [] => needle.isEmpty
  | a :: as => needle.isPrefixOf (a :: as) || listIsInfixOf needle as

/-- JavaScript String.prototype.trim embedded on the character list:
whitespace is stripped from both ends. -/
def jsTrim (s : String) : String :=
  ⟨((s.data.dropWhile Char.isWhitespace).reverse.dropWhile
      Char.isWhitespace).reverse⟩

/-- JavaScript String.prototype.toLowerCase embedded on the character
list. -/
def strToLower (s : String) : String :=
  ⟨s.data.map Char.toLower⟩

/-- JavaScript String.prototype.includes on the underlying character
lists. -/
def strIncludes (s sub : String) : Bool :=
  listIsInfixOf sub.data s.data

/-- Required-field loop of ModuleInstanceForm.validateForm: a required
parameter whose configured value is falsy gets the required message at
its own key. -/
def formRequiredFold (cfg : String → JValue) (params : List ModuleParameter)
    (e : List (String × String)) : List (String × String) :=
  params.foldl (fun acc param =>
    if param.required && jsFalsy (cfg param.name) then
      recordSet acc param.name (param.label ++ " is required")
    else acc) e

/-- Database-specific checks of validateForm, run when the lowercased
module id contains database or sql. -/
def formDbChecks (cfg : String → JValue) (e : List (String × String)) :
    List (String × String) :=
  let e := if jsFalsy (cfg "database_type") then
      recordSet e "database_type" "Database type is required" else e
  let e := if jsFalsy (cfg "hostname") then
      recordSet e "hostname" "Hostname is required" else e
  let e := if jsFalsy (cfg "port") then
      recordSet e "port" "Port is required" else e
  let e := if jsFalsy (cfg "database_name") then
      recordSet e "database_name" "Database name is required" else e
  let e := if jsFalsy (cfg "username") then
      recordSet e "username" "Username is required" else e
  let e := if jsFalsy (cfg "password") then
      recordSet e "password" "Password is required" else e
  e

/-- Api-specific check of validateForm, run when the lowercased module id
contains api or rest. -/
def formApiChecks (cfg : String → JValue) (e : List (String × String)) :
    List (String × String) :=
  if jsFalsy (cfg "host") then recordSet e "host" "Host is required" else e

/-- Embedding of ModuleInstanceForm.validateForm, returning the newErrors
record; the form submits only when the record is empty. A required
parameter counts as missing whenever its configured value is falsy, and
database and api flavoured modules get extra fixed-key checks, also
keyed on falsiness. -/
def validateForm (name : String) (selectedModuleId : String)
    (selectedModule : Option ModuleDefinition) (cfg : String → JValue) :
    List (String × String) :=
  let e : List (String × String) := []
  let e := if jsTrim name = "" then recordSet e "name" "Name is required" else e
  let e :=
    if selectedModuleId = "" then
      recordSet e "module_id" "Please select a module type"
    else e
  match selectedModule with
  | none => e
  | some m =>
    let e := formRequiredFold cfg m.parameters e
    let moduleId := strToLower m.id
    let e :=
      if strIncludes moduleId "database" || strIncludes moduleId "sql" then
        formDbChecks cfg e
      else e
    let e :=
      if strIncludes moduleId "api" || strIncludes moduleId "rest" then
        formApiChecks cfg e
      else e
    e

/-- Concrete module instance used to exercise the CRUD theorems. -/
def fixInst : ModuleInstance :=
  { id := "i1"
    module_id := "m1"
    name := "first"
    description := none
    configuration := []
    created_at := "T0"
    updated_at := "T1" }

/-- Concrete instance store holding one source instance. -/
def fixStore : InstanceStore :=
  fun t =>
    match t with
    | .sources => [fixInst]
    | _ => []

/-- Concrete update request used to exercise the CRUD theorems. -/
def fixData : InstanceData :=
  { module_id := "m2"
    name := "renamed"
    description := some "d"
    configuration := [("k", JValue.str "v")] }

/-- Concrete module definitions with a single source module m1. -/
def fixDefs : ModulesConfig :=
  fun t =>
    match t with
    | .sources => [{ id := "m1", name := "Module One", parameters := [] }]
    | _ => []

/-- Create request whose single edge references node ids a and b while
the node list is empty. -/
def danglingInput : WorkflowInput :=
  { id := none
    name := some "w"
    description := none
    status := none
    nodes := some []
    edges := some [{ id := "e1", source := "a", target := "b", type := none }]
    viewport := none }

/-- Create request with every optional field absent. -/
def emptyInput : WorkflowInput :=
  { id := none
    name := none
    description := none
    status := none
    nodes := none
    edges := none
    viewport := none }

/-- Concrete stored workflow used to exercise the execution theorems. -/
def fixWorkflow : Workflow :=
  { id := "w1"
    name := "W"
    description := ""
    status := "draft"
    created_at := "T0"
    updated_at := "T0"
    last_execution := none
    execution_status := "pending"
    nodes := []
    edges := []
    viewport := defaultViewport }

/-- Concrete stored workflows document holding one workflow. -/
def fixDoc : WorkflowsDoc :=
  { workflows := [fixWorkflow] }

/-- Host primitives instantiated trivially, sufficient for runs that
never reach a regex, JSON, email, url, ip or string-coercion check. -/
def trivialHost : HostChecks :=
  { regexTest := fun _ _ => true
    jsonParses := fun _ => true
    isValidEmail := fun _ => true
    isValidUrl := fun _ => true
    isValidIpAddress := fun _ => true
    toNumberStr := fun _ => none
    toNumberBox := fun _ => none
    showNum := fun _ => ""
    displayValue := fun _ => "" }

/-- Required numeric parameter named port with no extra validation. -/
def portParam : ModuleParameter :=
  { name := "port"
    label := "Port"
    type := .number
    required := true
    options := none
    validation := none }

/-- Module definition mod1 whose only parameter is portParam. -/
def fixModule : ModuleDefinition :=
  { id := "mod1", name := "Mod", parameters := [portParam] }

/-- Configuration assigning the number zero to port and leaving every
other key undefined. -/
def zeroCfg : String → JValue :=
  fun k => if k == "port" then JValue.num 0 else JValue.undef -- zero only at port

/-- Configuration leaving every key undefined. -/
def emptyCfg : String → JValue :=
  fun _ => JValue.undef -- undefined everywhere

/-- Concrete stored raw workflow record with a single name field. -/
def fixRecOld : JRecord :=
  fun k => if k == "name" then some (.str "old") else none

/-- Concrete empty update request body. -/
def fixRecBody : JRecord :=
  fun _ => none

section Theorems

/-! Helper lemmas shared by the claim theorems. -/

theorem updateInList_eq_none (instanceId : String)
    (f : ModuleInstance → ModuleInstance) (l : List ModuleInstance)
    (h : ∀ inst ∈ l, inst.id ≠ instanceId) :
    updateInList instanceId f l = none := by
  induction l with
  | nil => rfl
  | cons a as ih =>
    simp only [updateInList]
    rw [if_neg (h a (by simp))]
    rw [ih (fun x hx => h x (by simp [hx]))]

theorem updateInList_found (instanceId : String)
    (f : ModuleInstance → ModuleInstance) (pre : List ModuleInstance)
    (x : ModuleInstance) (suf : List ModuleInstance)
    (hx : x.id = instanceId) (hpre : ∀ y ∈ pre, y.id ≠ instanceId) :
    updateInList instanceId f (pre ++ x :: suf) = some (pre ++ f x :: suf, f x) := by
  induction pre with
  | nil => simp [updateInList, hx]
  | cons p ps ih =>
    simp only [List.cons_append, updateInList]
    rw [if_neg (hpre p (by simp))]
    simp only [List.append_eq]
    rw [ih (fun y hy => hpre y (by simp [hy]))]

theorem removeFromList_eq_none (instanceId : String) (l : List ModuleInstance)
    (h : ∀ inst ∈ l, inst.id ≠ instanceId) :
    removeFromList instanceId l = none := by
  induction l with
  | nil => rfl
  | cons a as ih =>
    simp only [removeFromList]
    rw [if_neg (h a (by simp))]
    rw [ih (fun x hx => h x (by simp [hx]))]

theorem removeFromList_found (instanceId : String) (pre : List ModuleInstance)
    (x : ModuleInstance) (suf : List ModuleInstance)
    (hx : x.id = instanceId) (hpre : ∀ y ∈ pre, y.id ≠ instanceId) :
    removeFromList instanceId (pre ++ x :: suf) = some (pre ++ suf) := by
  induction pre with
  | nil => simp [removeFromList, hx]
  | cons p ps ih =>
    simp only [List.cons_append, removeFromList]
    rw [if_neg (hpre p (by simp))]
    simp only [List.append_eq]
    rw [ih (fun y hy => hpre y (by simp [hy]))]

/-- Claim C1: when no instance of the given module type carries the
requested id, updateModuleInstance and deleteModuleInstance both fail
with the message naming the id and produce no new store (the source
throws before any write); when such an instance exists at a first
matching position, update replaces exactly that instance, keeping its id
and created_at, installing the supplied module_id, name, description and
configuration and the fresh updated_at, delete removes exactly that
instance, and in both outcomes every other position of that list and
every other module type of the store are untouched. -/
theorem updateDelete_moduleInstance_spec (store : InstanceStore)
    (moduleType : ModuleType) (instanceId : String) (data : InstanceData)
    (now : String) :
    ((∀ inst ∈ store moduleType, inst.id ≠ instanceId) →
      updateModuleInstance store moduleType instanceId data now =
        .error ("Module instance with ID " ++ instanceId ++ " not found") ∧
      deleteModuleInstance store moduleType instanceId =
        .error ("Module instance with ID " ++ instanceId ++ " not found")) ∧
    (∀ pre x suf, store moduleType = pre ++ x :: suf → x.id = instanceId →
      (∀ y ∈ pre, y.id ≠ instanceId) →
      (updateModuleInstance store moduleType instanceId data now =
        .ok (store.set moduleType (pre ++ applyInstanceUpdate data now x :: suf),
             applyInstanceUpdate data now x) ∧
       (applyInstanceUpdate data now x).id = x.id ∧
       (applyInstanceUpdate data now x).created_at = x.created_at ∧
       (applyInstanceUpdate data now x).module_id = data.module_id ∧
       (applyInstanceUpdate data now x).name = data.name ∧
       (applyInstanceUpdate data now x).description = data.description ∧
       (applyInstanceUpdate data now x).configuration = data.configuration ∧
       (applyInstanceUpdate data now x).updated_at = now) ∧
      deleteModuleInstance store moduleType instanceId =
        .ok (store.set moduleType (pre ++ suf)) ∧
      (∀ u, u ≠ moduleType →
        store.set moduleType (pre ++ applyInstanceUpdate data now x :: suf) u =
          store u ∧
        store.set moduleType (pre ++ suf) u = store u)) := by
  constructor
  · intro h
    constructor
    · simp only [updateModuleInstance]
      rw [updateInList_eq_none instanceId _ _ h]
    · simp only [deleteModuleInstance]
      rw [removeFromList_eq_none instanceId _ h]
  · intro pre x suf hsplit hx hpre
    refine ⟨⟨?_, rfl, rfl, rfl, rfl, rfl, rfl, rfl⟩, ?_, ?_⟩
    · simp only [updateModuleInstance, hsplit]
      rw [updateInList_found instanceId _ pre x suf hx hpre]
    · simp only [deleteModuleInstance, hsplit]
      rw [removeFromList_found instanceId pre x suf hx hpre]
    · intro u hu
      constructor <;> simp [InstanceStore.set, hu]

/-- Concrete run of the C1 theorem: a miss on id zz fails with the
expected message, and a hit on id i1 rewrites the sources list. -/
theorem updateDelete_moduleInstance_spec_witness :
    updateModuleInstance fixStore .sources "zz" fixData "T2" =
      .error "Module instance with ID zz not found" ∧
    updateModuleInstance fixStore .sources "i1" fixData "T2" =
      .ok (fixStore.set .sources
            ([] ++ applyInstanceUpdate fixData "T2" fixInst :: []),
           applyInstanceUpdate fixData "T2" fixInst) := by
  constructor
  · exact ((updateDelete_moduleInstance_spec fixStore .sources "zz" fixData
      "T2").1 (by simp [fixStore, fixInst])).1
  · exact (((updateDelete_moduleInstance_spec fixStore .sources "i1" fixData
      "T2").2 [] fixInst [] rfl rfl (by simp)).1).1

/-- Claim C2: createModuleInstance rejects a request whose module_id
matches no definition of the chosen type, with the message naming the
module id and the type, and in that case performs no write and no counter
advance (the source throws before either); otherwise it appends exactly
one new instance built from the request, with a freshly generated id,
created_at equal to updated_at, other types untouched, and returns it. -/
theorem createModuleInstance_spec (defs : ModulesConfig) (store : InstanceStore)
    (moduleType : ModuleType) (data : InstanceData) (lastId : Nat) (now : String) :
    ((∀ d ∈ defs moduleType, d.id ≠ data.module_id) →
      createModuleInstance defs store moduleType data lastId now =
        .error ("Module with ID " ++ data.module_id ++ " not found in " ++
                moduleType.jsName)) ∧
    ((∃ d ∈ defs moduleType, d.id = data.module_id) →
      createModuleInstance defs store moduleType data lastId now =
        .ok (store.set moduleType (store moduleType ++
              [{ id := Nat.repr (lastId + 1)
                 module_id := data.module_id
                 name := data.name
                 description := data.description
                 configuration := data.configuration
                 created_at := now
                 updated_at := now }]),
             lastId + 1,
             { id := Nat.repr (lastId + 1)
               module_id := data.module_id
               name := data.name
               description := data.description
               configuration := data.configuration
               created_at := now
               updated_at := now }) ∧
      (∀ u, u ≠ moduleType →
        store.set moduleType (store moduleType ++
          [{ id := Nat.repr (lastId + 1)
             module_id := data.module_id
             name := data.name
             description := data.description
             configuration := data.configuration
             created_at := now
             updated_at := now }]) u = store u)) := by
  constructor
  · intro h
    have hc : (defs moduleType).any (fun d => d.id == data.module_id) = false := by
      simp only [List.any_eq_false, beq_iff_eq]
      exact h
    simp [createModuleInstance, hc]
  · rintro ⟨d, hd, he⟩
    have hc : (defs moduleType).any (fun d => d.id == data.module_id) = true := by
      simp only [List.any_eq_true, beq_iff_eq]
      exact ⟨d, hd, he⟩
    constructor
    · simp [createModuleInstance, hc, generateId]
    · intro u hu
      simp [InstanceStore.set, hu]

/-- Concrete run of the C2 theorem: module id m1 exists among the source
definitions, so a create appends the new instance; module id m9 does not,
so the create fails with the expected message. -/
theorem createModuleInstance_spec_witness :
    createModuleInstance fixDefs fixStore .sources
      { module_id := "m1", name := "inst", description := none, configuration := [] }
      1000 "T3" =
      .ok (fixStore.set .sources (fixStore .sources ++
            [{ id := Nat.repr 1001
               module_id := "m1"
               name := "inst"
               description := none
               configuration := []
               created_at := "T3"
               updated_at := "T3" }]),
           1001,
           { id := Nat.repr 1001
             module_id := "m1"
             name := "inst"
             description := none
             configuration := []
             created_at := "T3"
             updated_at := "T3" }) ∧
    createModuleInstance fixDefs fixStore .sources
      { module_id := "m9", name := "inst", description := none, configuration := [] }
      1000 "T3" =
      .error "Module with ID m9 not found in sources" := by
  constructor
  · exact ((createModuleInstance_spec fixDefs fixStore .sources
      { module_id := "m1", name := "inst", description := none, configuration := [] }
      1000 "T3").2 ⟨{ id := "m1", name := "Module One", parameters := [] },
        by simp [fixDefs], rfl⟩).1
  · exact (createModuleInstance_spec fixDefs fixStore .sources
      { module_id := "m9", name := "inst", description := none, configuration := [] }
      1000 "T3").1 (by simp [fixDefs])

theorem genSeq_eq_range (lastId n : Nat) :
    genSeq lastId n = List.range' (lastId + 1) n := by
  induction n generalizing lastId with
  | zero => rfl
  | succ n ih =>
    simp only [genSeq, generateId, List.range']
    rw [ih]

/-- Claim C3: generateId strictly increases the persisted lastId counter
on every call; the numeric ids handed out by any sequence of create
operations are pairwise distinct and all exceed the starting counter
value, hence differ from every numeric id at most the starting counter
(the source stores their decimal strings); and whenever the dev-server
create endpoint settles on an id, no workflow file with that id
exists. -/
theorem generateId_uniqueness_spec :
    (∀ lastId, lastId < (generateId lastId).1) ∧
    (∀ lastId n, (genSeq lastId n).Nodup) ∧
    (∀ lastId n v, v ≤ lastId → v ∉ genSeq lastId n) ∧
    (∀ (existing : String → Bool) (id : String) (gens : List String)
       (chosen : String),
      devChooseId existing id gens = some chosen → existing chosen = false) := by
  refine ⟨fun lastId => Nat.lt_succ_self lastId, fun lastId n => ?_,
    fun lastId n v hv hmem => ?_, fun existing id gens chosen h => ?_⟩
  · rw [genSeq_eq_range]
    exact List.nodup_range' _ _
  · rw [genSeq_eq_range] at hmem
    rw [List.mem_range'_1] at hmem
    omega
  · induction gens generalizing id with
    | nil =>
      simp only [devChooseId] at h
      by_cases he : existing id
      · simp [he] at h
      · simp only [he, Bool.false_eq_true, if_false] at h
        cases h
        simpa using he
    | cons g rest ih =>
      simp only [devChooseId] at h
      by_cases he : existing id
      · simp only [he, if_true] at h
        exact ih g h
      · simp only [he, Bool.false_eq_true, if_false] at h
        cases h
        simpa using he

/-- Concrete run of the C3 theorem: starting from counter 1000, three
creates never hand out a stored numeric id again, and the dev-server
retry loop walks past the taken id a to settle on the fresh id b. -/
theorem generateId_uniqueness_spec_witness :
    1000 ∉ genSeq 1000 3 ∧ (fun s => s == "a") "b" = false := by
  constructor
  · exact generateId_uniqueness_spec.2.2.1 1000 3 1000 (le_refl 1000)
  · exact generateId_uniqueness_spec.2.2.2 (fun s => s == "a") "a" ["a", "b"]
      "b" rfl

/-- Claim C4, counterexample: the localStorage create path persists a
workflow whose only edge points at node ids a and b although the node
list is empty, so the create path does not enforce edge-endpoint
referential integrity. -/
theorem saveWorkflow_edgeIntegrity_cex :
    ¬ (∀ w ∈ (saveWorkflowLocal { workflows := [] } 1000 danglingInput "T").1.workflows,
        ∀ e ∈ w.edges,
          (∃ n ∈ w.nodes, n.id = e.source) ∧ (∃ n ∈ w.nodes, n.id = e.target)) := by
  intro h
  have hmem : (saveWorkflowLocal { workflows := [] } 1000 danglingInput "T").2.2 ∈
      (saveWorkflowLocal { workflows := [] } 1000 danglingInput "T").1.workflows := by
    simp [saveWorkflowLocal]
  have h2 := h _ hmem { id := "e1", source := "a", target := "b", type := none }
    (by simp [saveWorkflowLocal, danglingInput])
  obtain ⟨⟨n, hn, _⟩, _⟩ := h2
  simp [saveWorkflowLocal, danglingInput] at hn

/-- Claim C4, amended: both create paths persist the request's node and
edge lists verbatim (defaulting each to the empty list when absent),
performing no edge-endpoint validation, and the localStorage path appends
exactly the returned record to the stored document. -/
theorem saveWorkflow_edges_passthrough (doc : WorkflowsDoc) (lastId : Nat)
    (wd : WorkflowInput) (now : String) :
    ((saveWorkflowLocal doc lastId wd now).2.2).edges = wd.edges.getD [] ∧
    ((saveWorkflowLocal doc lastId wd now).2.2).nodes = wd.nodes.getD [] ∧
    (saveWorkflowLocal doc lastId wd now).1.workflows =
      doc.workflows ++ [(saveWorkflowLocal doc lastId wd now).2.2] ∧
    (∀ (existing : String → Bool) (body : WorkflowInput) (gens : List String)
       (now2 id : String) (w : Workflow),
      devCreateWorkflow existing body gens now2 = some (id, w) →
      w.edges = body.edges.getD [] ∧ w.nodes = body.nodes.getD []) := by
  refine ⟨rfl, rfl, rfl, ?_⟩
  intro existing body gens now2 id w heq
  unfold devCreateWorkflow at heq
  cases hpick : devPickId existing body gens with
  | none => rw [hpick] at heq; cases heq
  | some i =>
    rw [hpick] at heq
    cases heq
    exact ⟨rfl, rfl⟩

/-- Concrete run of the amended C4 theorem: the dev-server create path
persists the dangling edge of the request unchanged. -/
theorem saveWorkflow_edges_passthrough_witness :
    ({ id := "g1"
       name := "w"
       description := ""
       status := "draft"
       created_at := "T"
       updated_at := "T"
       last_execution := none
       execution_status := "pending"
       nodes := []
       edges := [{ id := "e1", source := "a", target := "b", type := none }]
       viewport := defaultViewport } : Workflow).edges =
      danglingInput.edges.getD [] := by
  exact ((saveWorkflow_edges_passthrough { workflows := [] } 1000 danglingInput
    "T").2.2.2 (fun _ => false) danglingInput ["g1"] "T" "g1" _ rfl).1

/-- Claim C5: a workflow persisted by the localStorage create path has
status draft, execution_status pending, no last_execution, created_at
equal to updated_at, the request's nodes, edges and viewport with the
documented defaults, and the default name when the request has none; the
dev-server create path behaves the same except that a supplied non-empty
status wins over draft. -/
theorem createWorkflow_defaults_spec (doc : WorkflowsDoc) (lastId : Nat)
    (wd : WorkflowInput) (now : String) :
    ((saveWorkflowLocal doc lastId wd now).2.2.status = "draft" ∧
     (saveWorkflowLocal doc lastId wd now).2.2.execution_status = "pending" ∧
     (saveWorkflowLocal doc lastId wd now).2.2.last_execution = none ∧
     (saveWorkflowLocal doc lastId wd now).2.2.created_at = now ∧
     (saveWorkflowLocal doc lastId wd now).2.2.updated_at = now ∧
     (saveWorkflowLocal doc lastId wd now).2.2.nodes = wd.nodes.getD [] ∧
     (saveWorkflowLocal doc lastId wd now).2.2.edges = wd.edges.getD [] ∧
     (saveWorkflowLocal doc lastId wd now).2.2.viewport =
       wd.viewport.getD defaultViewport ∧
     (wd.name = none →
       (saveWorkflowLocal doc lastId wd now).2.2.name = "Untitled Workflow")) ∧
    defaultViewport.x = 0 ∧ defaultViewport.y = 0 ∧ defaultViewport.zoom = 1 ∧
    (∀ (existing : String → Bool) (body : WorkflowInput) (gens : List String)
       (now2 id : String) (w : Workflow),
      devCreateWorkflow existing body gens now2 = some (id, w) →
      (body.status = none → w.status = "draft") ∧
      (∀ s, body.status = some s → s ≠ "" → w.status = s) ∧
      w.execution_status = "pending" ∧
      w.last_execution = none ∧
      w.created_at = now2 ∧
      w.updated_at = now2 ∧
      w.nodes = body.nodes.getD [] ∧
      w.edges = body.edges.getD [] ∧
      w.viewport = body.viewport.getD defaultViewport ∧
      (body.name = none → w.name = "Untitled Workflow")) := by
  refine ⟨⟨rfl, rfl, rfl, rfl, rfl, rfl, rfl, rfl, ?_⟩, rfl, rfl, rfl, ?_⟩
  · intro hname
    show jsStringOr wd.name "Untitled Workflow" = "Untitled Workflow"
    rw [hname]
    rfl
  · intro existing body gens now2 id w heq
    unfold devCreateWorkflow at heq
    cases hpick : devPickId existing body gens with
    | none => rw [hpick] at heq; cases heq
    | some i =>
      rw [hpick] at heq
      cases heq
      refine ⟨?_, ?_, rfl, rfl, rfl, rfl, rfl, rfl, rfl, ?_⟩
      · intro hs
        show jsStringOr body.status "draft" = "draft"
        rw [hs]
        rfl
      · intro s hs hne
        show jsStringOr body.status "draft" = s
        rw [hs]
        simp [jsStringOr, hne]
      · intro hn
        show jsStringOr body.name "Untitled Workflow" = "Untitled Workflow"
        rw [hn]
        rfl

/-- Concrete run of the C5 theorem: an all-defaults request produces the
default name on the localStorage path and the draft status on the
dev-server path. -/
theorem createWorkflow_defaults_spec_witness :
    (saveWorkflowLocal { workflows := [] } 1000 emptyInput "T").2.2.name =
      "Untitled Workflow" ∧
    ({ id := "g1"
       name := "Untitled Workflow"
       description := ""
       status := "draft"
       created_at := "T"
       updated_at := "T"
       last_execution := none
       execution_status := "pending"
       nodes := []
       edges := []
       viewport := defaultViewport } : Workflow).status = "draft" := by
  constructor
  · exact (createWorkflow_defaults_spec { workflows := [] } 1000 emptyInput
      "T").1.2.2.2.2.2.2.2.2 rfl
  · exact ((createWorkflow_defaults_spec { workflows := [] } 1000 emptyInput
      "T").2.2.2.2 (fun _ => false) emptyInput ["g1"] "T" "g1" _ rfl).1 rfl

theorem markExecuted_found (wid now status : String) (pre : List Workflow)
    (w : Workflow) (suf : List Workflow) (hw : w.id = wid)
    (hpre : ∀ y ∈ pre, y.id ≠ wid) :
    markExecuted wid now status (pre ++ w :: suf) =
      pre ++ { w with last_execution := some now,
                      execution_status := status } :: suf := by
  induction pre with
  | nil => simp [markExecuted, hw]
  | cons p ps ih =>
    simp only [List.cons_append, markExecuted]
    rw [if_neg (hpre p (by simp))]
    simp only [List.append_eq]
    rw [ih (fun y hy => hpre y (by simp [hy]))]

/-- Claim C6: the localStorage execution stub stamps the matched stored
workflow with a fresh last_execution and a drawn success or failed
status, leaving every other stored workflow unchanged, and returns
exactly one of the two documented result shapes, the success shape
carrying an executionId and the failure shape none; both outcomes are
reached by concrete draws. -/
theorem executeWorkflow_stub_spec (doc : WorkflowsDoc) (lastId : Nat)
    (wid now : String) (r1 r2 : ℚ) :
    (∀ pre w suf, doc.workflows = pre ++ w :: suf → w.id = wid →
      (∀ y ∈ pre, y.id ≠ wid) →
      (executeWorkflowLocal doc lastId wid now r1 r2).1.workflows =
        pre ++ { w with last_execution := some now,
                        execution_status :=
                          if 1/5 < r1 then "success" else "failed" } :: suf ∧
      ((if 1/5 < r1 then "success" else "failed") = "success" ∨
       (if 1/5 < r1 then "success" else "failed") = "failed")) ∧
    ((executeWorkflowLocal doc lastId wid now r1 r2).2.2 =
       { success := true
         message := "Workflow execution started successfully"
         executionId := some ("exec_" ++ Nat.repr (lastId + 1)) } ∨
     (executeWorkflowLocal doc lastId wid now r1 r2).2.2 =
       { success := false
         message := "Workflow execution failed: Invalid configuration or connection error"
         executionId := none }) ∧
    ((executeWorkflowLocal doc lastId wid now 1 1).2.2).success = true ∧
    ((executeWorkflowLocal doc lastId wid now 0 0).2.2).success = false := by
  refine ⟨?_, ?_, ?_, ?_⟩
  · intro pre w suf hsplit hw hpre
    constructor
    · have hlist : (executeWorkflowLocal doc lastId wid now r1 r2).1.workflows =
          markExecuted wid now (if 1/5 < r1 then "success" else "failed")
            doc.workflows := by
        by_cases h2 : (1/5 : ℚ) < r2 <;>
          simp only [executeWorkflowLocal, h2, if_true, if_false]
      rw [hlist, hsplit, markExecuted_found wid now _ pre w suf hw hpre]
    · by_cases h1 : (1/5 : ℚ) < r1
      · left
        rw [if_pos h1]
      · right
        rw [if_neg h1]
  · by_cases h2 : (1/5 : ℚ) < r2
    · left
      simp only [executeWorkflowLocal, h2, if_true, generateId]
    · right
      simp only [executeWorkflowLocal, h2, if_false]
  · have h : (1/5 : ℚ) < 1 := by norm_num
    simp only [executeWorkflowLocal, h, if_true]
  · have h : ¬ ((1/5 : ℚ) < 0) := by norm_num
    simp only [executeWorkflowLocal, h, if_false]

/-- Concrete run of the C6 theorem: executing the only stored workflow
with draws 1 and 0 stamps it with the success status and the fresh
timestamp. -/
theorem executeWorkflow_stub_spec_witness :
    (executeWorkflowLocal fixDoc 1000 "w1" "T1" 1 0).1.workflows =
      [] ++ { fixWorkflow with
              last_execution := some "T1",
              execution_status :=
                if 1/5 < (1 : ℚ) then "success" else "failed" } :: [] := by
  exact ((executeWorkflow_stub_spec fixDoc 1000 "w1" "T1" 1 0).1 [] fixWorkflow []
    rfl rfl (by simp)).1

/-- Claim C8: the dev-server update handler keeps the stored id even when
the request body carries a different one, stamps updated_at with the
current time, and leaves every field the body does not mention
unchanged. -/
theorem devUpdate_frame_spec (existing body : JRecord) (now : String) :
    devUpdateWorkflow existing body now "id" = existing "id" ∧
    devUpdateWorkflow existing body now "updated_at" = some (.str now) ∧
    (∀ k, k ≠ "updated_at" → body k = none →
      devUpdateWorkflow existing body now k = existing k) := by
  refine ⟨rfl, rfl, ?_⟩
  intro k hk hb
  unfold devUpdateWorkflow
  by_cases h1 : k = "id"
  · rw [if_pos h1, h1]
  · rw [if_neg h1, if_neg hk, hb]

/-- Concrete run of the C8 theorem: an empty body leaves the stored name
field untouched. -/
theorem devUpdate_frame_spec_witness :
    devUpdateWorkflow fixRecOld fixRecBody "T9" "name" = fixRecOld "name" := by
  exact (devUpdate_frame_spec fixRecOld fixRecBody "T9").2.2 "name" (by decide) rfl

/-- Claim C9: after the dev-server execute endpoint runs on an existing
workflow, the persisted execution_status is success exactly when the
response reports success, the persisted last_execution and updated_at
coincide, and an executionId is present exactly when the response
reports success. -/
theorem devExecute_consistency_spec (existing : JRecord) (now : String)
    (nowMs : Nat) (r : ℚ) :
    ((devExecuteWorkflow existing now nowMs r).1 "execution_status" =
        some (.str "success") ↔
      (devExecuteWorkflow existing now nowMs r).2.success = true) ∧
    (devExecuteWorkflow existing now nowMs r).1 "last_execution" =
      (devExecuteWorkflow existing now nowMs r).1 "updated_at" ∧
    ((devExecuteWorkflow existing now nowMs r).2.executionId.isSome = true ↔
      (devExecuteWorkflow existing now nowMs r).2.success = true) := by
  by_cases h : (1/5 : ℚ) < r <;>
    simp [devExecuteWorkflow, h]

/-- Claim C10: the dev-server list endpoint returns a permutation of the
stored workflow documents that is sorted in descending order of the
string key taken from updated_at, falling back to created_at and then to
the empty string. -/
theorem listWorkflows_sorted_spec (ws : List JRecord) :
    (listWorkflows ws).Perm ws ∧
    (listWorkflows ws).Pairwise
      (fun a b => workflowSortKey b ≤ workflowSortKey a) := by
  constructor
  · exact List.mergeSort_perm ws _
  · have htrans : ∀ (a b c : JRecord),
        decide (workflowSortKey b ≤ workflowSortKey a) = true →
        decide (workflowSortKey c ≤ workflowSortKey b) = true →
        decide (workflowSortKey c ≤ workflowSortKey a) = true := by
      intro a b c hab hbc
      exact decide_eq_true
        (le_trans (of_decide_eq_true hbc) (of_decide_eq_true hab))
    have htotal : ∀ (a b : JRecord),
        (decide (workflowSortKey b ≤ workflowSortKey a) ||
         decide (workflowSortKey a ≤ workflowSortKey b)) = true := by
      intro a b
      simp only [Bool.or_eq_true, decide_eq_true_eq]
      exact le_total _ _
    have h := @List.sorted_mergeSort JRecord
      (fun a b => decide (workflowSortKey b ≤ workflowSortKey a)) htrans htotal ws
    exact h.imp (fun hab => of_decide_eq_true hab)

theorem recordGet_recordSet_self (k v : String)
    (rec : List (String × String)) :
    recordGet (recordSet rec k v) k = some v := by
  induction rec with
  | nil => simp [recordSet, recordGet]
  | cons a as ih =>
    by_cases ha : a.1 = k
    · simp [recordSet, recordGet, ha]
    · simpa [recordSet, recordGet, ha] using ih

theorem recordGet_recordSet_ne (k k' v : String) (hne : k' ≠ k)
    (rec : List (String × String)) :
    recordGet (recordSet rec k' v) k = recordGet rec k := by
  induction rec with
  | nil => simp [recordSet, recordGet, hne]
  | cons a as ih =>
    by_cases ha : a.1 = k'
    · have hak : a.1 ≠ k := ha ▸ hne
      simp [recordSet, recordGet, ha, hne, hak]
    · by_cases hak : a.1 = k
      · simp only [recordSet]
        rw [if_neg ha]
        simp [recordGet, hak]
      · simp only [recordSet]
        rw [if_neg ha]
        simpa [recordGet, hak] using ih

theorem recordSet_ne_nil (rec : List (String × String)) (k v : String) :
    recordSet rec k v ≠ [] := by
  cases rec with
  | nil => simp [recordSet]
  | cons a as =>
    simp only [recordSet]
    split <;> simp

theorem recordGet_isSome_ne_nil (rec : List (String × String)) (k : String)
    (h : (recordGet rec k).isSome = true) : rec ≠ [] := by
  intro he
  subst he
  simp [recordGet] at h

theorem validateParamStep_get_ne (hc : HostChecks) (cfg : String → JValue)
    (acc : List (String × String) × List (String × String))
    (param : ModuleParameter) (k : String) (hne : param.name ≠ k) :
    recordGet (validateParamStep hc cfg acc param).1 k = recordGet acc.1 k := by
  unfold validateParamStep
  by_cases he : isEmptyValue (cfg param.name)
  · by_cases hr : param.required
    · simp only [he, hr, if_true]
      exact recordGet_recordSet_ne k param.name _ hne acc.1
    · simp [he, hr]
  · simp only [he, Bool.false_eq_true, if_false]
    cases hnet : paramErrorNet hc param (cfg param.name) with
    | none => simp
    | some m =>
      simp only
      exact recordGet_recordSet_ne k param.name m hne acc.1

theorem validateParamStep_required_get (hc : HostChecks) (cfg : String → JValue)
    (acc : List (String × String) × List (String × String))
    (param : ModuleParameter) (hr : param.required = true)
    (he : isEmptyValue (cfg param.name) = true) :
    recordGet (validateParamStep hc cfg acc param).1 param.name =
      some (param.label ++ " is required") := by
  simp only [validateParamStep, he, hr, if_true]
  exact recordGet_recordSet_self param.name _ acc.1

theorem validateParamStep_eq_nil (hc : HostChecks) (cfg : String → JValue)
    (acc : List (String × String) × List (String × String))
    (param : ModuleParameter)
    (h : (validateParamStep hc cfg acc param).1 = []) :
    acc.1 = [] ∧
    (param.required = true → isEmptyValue (cfg param.name) = false) ∧
    (isEmptyValue (cfg param.name) = false →
      paramErrorNet hc param (cfg param.name) = none) := by
  by_cases he : isEmptyValue (cfg param.name)
  · by_cases hr : param.required
    · exfalso
      simp only [validateParamStep, he, hr, if_true] at h
      exact recordSet_ne_nil acc.1 param.name _ h
    · simp only [validateParamStep, he, hr, if_true, Bool.false_eq_true,
        if_false] at h
      refine ⟨h, fun h' => absurd h' hr, fun hfe => ?_⟩
      rw [he] at hfe
      cases hfe
  · cases hnet : paramErrorNet hc param (cfg param.name) with
    | none =>
      simp only [validateParamStep, he, Bool.false_eq_true, if_false,
        hnet] at h
      refine ⟨h, fun _ => ?_, fun _ => rfl⟩
      simpa using he
    | some m =>
      exfalso
      simp only [validateParamStep, he, Bool.false_eq_true, if_false,
        hnet] at h
      exact recordSet_ne_nil acc.1 param.name m h

theorem validateFold_get_ne (hc : HostChecks) (cfg : String → JValue)
    (l : List ModuleParameter) (k : String) (hl : ∀ q ∈ l, q.name ≠ k) :
    ∀ acc, recordGet (l.foldl (validateParamStep hc cfg) acc).1 k =
      recordGet acc.1 k := by
  induction l with
  | nil => intro acc; rfl
  | cons q l ih =>
    intro acc
    simp only [List.foldl_cons]
    rw [ih (fun x hx => hl x (by simp [hx]))]
    exact validateParamStep_get_ne hc cfg acc q k (hl q (by simp))

theorem validateFold_eq_nil (hc : HostChecks) (cfg : String → JValue)
    (l : List ModuleParameter) :
    ∀ acc, (l.foldl (validateParamStep hc cfg) acc).1 = [] →
      acc.1 = [] ∧ ∀ p ∈ l,
        (p.required = true → isEmptyValue (cfg p.name) = false) ∧
        (isEmptyValue (cfg p.name) = false →
          paramErrorNet hc p (cfg p.name) = none) := by
  induction l with
  | nil =>
    intro acc h
    exact ⟨h, by simp⟩
  | cons q l ih =>
    intro acc h
    simp only [List.foldl_cons] at h
    obtain ⟨hstep, hrest⟩ := ih _ h
    obtain ⟨hacc, hq1, hq2⟩ := validateParamStep_eq_nil hc cfg acc q hstep
    refine ⟨hacc, ?_⟩
    intro p hp
    rcases List.mem_cons.mp hp with rfl | hpl
    · exact ⟨hq1, hq2⟩
    · exact hrest p hpl

theorem recordGet_isSome_recordSet (rec : List (String × String))
    (k k' v : String) (h : (recordGet rec k).isSome = true) :
    (recordGet (recordSet rec k' v) k).isSome = true := by
  by_cases hk : k' = k
  · subst hk
    rw [recordGet_recordSet_self]
    rfl
  · rw [recordGet_recordSet_ne k k' v hk]
    exact h

theorem recordGet_isSome_iteSet (c : Prop) [Decidable c]
    (rec : List (String × String)) (k k' v : String)
    (h : (recordGet rec k).isSome = true) :
    (recordGet (if c then recordSet rec k' v else rec) k).isSome = true := by
  split
  · exact recordGet_isSome_recordSet rec k k' v h
  · exact h

theorem formRequiredFold_preserves (cfg : String → JValue)
    (l : List ModuleParameter) :
    ∀ e k, (recordGet e k).isSome = true →
      (recordGet (formRequiredFold cfg l e) k).isSome = true := by
  induction l with
  | nil => intro e k h; exact h
  | cons q l ih =>
    intro e k h
    simp only [formRequiredFold, List.foldl_cons]
    apply ih
    by_cases hq : (q.required && jsFalsy (cfg q.name)) = true
    · simp only [hq, if_true]
      exact recordGet_isSome_recordSet e k q.name _ h
    · simp only [hq, if_false]
      exact h

theorem formRequiredFold_sets (cfg : String → JValue)
    (l : List ModuleParameter) (p : ModuleParameter) (hp : p ∈ l)
    (hr : p.required = true) (hf : jsFalsy (cfg p.name) = true) :
    ∀ e, (recordGet (formRequiredFold cfg l e) p.name).isSome = true := by
  induction l with
  | nil => cases hp
  | cons q l ih =>
    intro e
    rcases List.mem_cons.mp hp with rfl | hpl
    · simp only [formRequiredFold, List.foldl_cons, hr, hf, Bool.and_self,
        if_true]
      have h0 : (recordGet (recordSet e p.name (p.label ++ " is required"))
          p.name).isSome = true := by
        rw [recordGet_recordSet_self]
        rfl
      exact formRequiredFold_preserves cfg l _ p.name h0
    · simp only [formRequiredFold, List.foldl_cons]
      exact ih hpl _

theorem formDbChecks_preserves (cfg : String → JValue)
    (e : List (String × String)) (k : String)
    (h : (recordGet e k).isSome = true) :
    (recordGet (formDbChecks cfg e) k).isSome = true := by
  exact recordGet_isSome_iteSet _ _ _ _ _
    (recordGet_isSome_iteSet _ _ _ _ _
      (recordGet_isSome_iteSet _ _ _ _ _
        (recordGet_isSome_iteSet _ _ _ _ _
          (recordGet_isSome_iteSet _ _ _ _ _
            (recordGet_isSome_iteSet _ _ _ _ _ h)))))

theorem formApiChecks_preserves (cfg : String → JValue)
    (e : List (String × String)) (k : String)
    (h : (recordGet e k).isSome = true) :
    (recordGet (formApiChecks cfg e) k).isSome = true := by
  exact recordGet_isSome_iteSet _ _ _ _ _ h

/-- Claim C7, counterexample: the two validators do not apply the same
required-field rule. For a required numeric parameter configured with the
number zero, validateModuleConfiguration reports a valid configuration
(zero is none of undefined, null or the empty string), while
ModuleInstanceForm.validateForm records the required error for that very
parameter, because zero is falsy. -/
theorem validation_requiredRule_cex :
    (validateModuleConfiguration trivialHost [portParam] zeroCfg).isValid =
      true ∧
    recordGet (validateForm "inst" "mod1" (some fixModule) zeroCfg) "port" =
      some "Port is required" :=
  ⟨rfl, rfl⟩

/-- Claim C7, amended: over a parameter list with distinct names,
validateModuleConfiguration reports invalid with the required message
keyed by the parameter name for every required parameter whose value is
undefined, null or empty, and conversely a valid result means every
required parameter has a non-empty value and every non-empty value passes
its type-specific and custom checks. ModuleInstanceForm.validateForm
applies a stricter required rule before any submit: any required
parameter whose configured value is merely falsy (zero and false
included) gets an error recorded at its key and blocks the submit. -/
theorem validateConfiguration_spec (hc : HostChecks)
    (params : List ModuleParameter) (cfg : String → JValue) :
    ((params.map (fun p => p.name)).Nodup →
      ∀ p ∈ params, p.required = true → isEmptyValue (cfg p.name) = true →
        (validateModuleConfiguration hc params cfg).isValid = false ∧
        recordGet (validateModuleConfiguration hc params cfg).errors p.name =
          some (p.label ++ " is required")) ∧
    ((validateModuleConfiguration hc params cfg).isValid = true →
      ∀ p ∈ params,
        (p.required = true → isEmptyValue (cfg p.name) = false) ∧
        (isEmptyValue (cfg p.name) = false →
          paramErrorNet hc p (cfg p.name) = none)) ∧
    (∀ (name smid : String) (m : ModuleDefinition), ∀ p ∈ m.parameters,
      p.required = true → jsFalsy (cfg p.name) = true →
      (recordGet (validateForm name smid (some m) cfg) p.name).isSome = true ∧
      validateForm name smid (some m) cfg ≠ []) := by
  refine ⟨?_, ?_, ?_⟩
  · intro hnodup p hp hr he
    obtain ⟨l1, l2, rfl⟩ := List.append_of_mem hp
    have hmap := hnodup
    rw [List.map_append, List.map_cons] at hmap
    have hl2 : ∀ q ∈ l2, q.name ≠ p.name := by
      have h2 := (List.nodup_append.mp hmap).2.1
      have hnm := (List.nodup_cons.mp h2).1
      intro q hq hqe
      exact hnm (hqe ▸ List.mem_map_of_mem (fun r => r.name) hq)
    have hget : recordGet
        (validateModuleConfiguration hc (l1 ++ p :: l2) cfg).errors p.name =
        some (p.label ++ " is required") := by
      show recordGet
        ((l1 ++ p :: l2).foldl (validateParamStep hc cfg) ([], [])).1 p.name = _
      rw [List.foldl_append, List.foldl_cons]
      rw [validateFold_get_ne hc cfg l2 p.name hl2]
      exact validateParamStep_required_get hc cfg _ p hr he
    refine ⟨?_, hget⟩
    have hne : (validateModuleConfiguration hc (l1 ++ p :: l2) cfg).errors ≠ [] := by
      intro hE
      rw [hE] at hget
      cases hget
    show (validateModuleConfiguration hc (l1 ++ p :: l2) cfg).errors.isEmpty = false
    cases herr : (validateModuleConfiguration hc (l1 ++ p :: l2) cfg).errors with
    | nil => exact absurd herr hne
    | cons a as => rfl
  · intro hvalid p hp
    have herr : (params.foldl (validateParamStep hc cfg) ([], [])).1 = [] := by
      have h2 : (validateModuleConfiguration hc params cfg).errors.isEmpty =
          true := hvalid
      exact List.isEmpty_iff.mp h2
    obtain ⟨-, hall⟩ := validateFold_eq_nil hc cfg params ([], []) herr
    exact hall p hp
  · intro name smid m p hp hr hf
    have hbase := formRequiredFold_sets cfg m.parameters p hp hr hf
    have hmain : (recordGet (validateForm name smid (some m) cfg)
        p.name).isSome = true := by
      simp only [validateForm]
      by_cases hapi : (strIncludes (strToLower m.id) "api" ||
          strIncludes (strToLower m.id) "rest") = true
      · rw [if_pos hapi]
        apply formApiChecks_preserves
        by_cases hdb : (strIncludes (strToLower m.id) "database" ||
            strIncludes (strToLower m.id) "sql") = true
        · rw [if_pos hdb]
          apply formDbChecks_preserves
          exact hbase _
        · rw [if_neg hdb]
          exact hbase _
      · rw [if_neg hapi]
        by_cases hdb : (strIncludes (strToLower m.id) "database" ||
            strIncludes (strToLower m.id) "sql") = true
        · rw [if_pos hdb]
          apply formDbChecks_preserves
          exact hbase _
        · rw [if_neg hdb]
          exact hbase _
    exact ⟨hmain, recordGet_isSome_ne_nil _ p.name hmain⟩

/-- Concrete run of the amended C7 theorem: with the port parameter left
undefined, validateModuleConfiguration rejects with the required message;
with the port parameter set to zero it accepts, yet validateForm still
records an error at the port key. -/
theorem validateConfiguration_spec_witness :
    ((validateModuleConfiguration trivialHost [portParam] emptyCfg).isValid =
       false ∧
     recordGet (validateModuleConfiguration trivialHost [portParam]
       emptyCfg).errors "port" = some "Port is required") ∧
    isEmptyValue (zeroCfg "port") = false ∧
    (recordGet (validateForm "inst" "mod1" (some fixModule) zeroCfg)
      "port").isSome = true := by
  refine ⟨?_, ?_, ?_⟩
  · exact (validateConfiguration_spec trivialHost [portParam] emptyCfg).1
      (by simp) portParam (by simp) rfl rfl
  · exact ((validateConfiguration_spec trivialHost [portParam] zeroCfg).2.1
      rfl portParam (by simp)).1 rfl
  · exact ((validateConfiguration_spec trivialHost [] zeroCfg).2.2
      "inst" "mod1" fixModule portParam (by simp [fixModule]) rfl rfl).1

end Theorems

end DataplatformUI
